import Mathlib

/-!
Verification of the streaming/output subsystem of the digital-avatar project.

This file shallowly embeds the parts of the code that the specification's
testable properties talk about:

* `StreamManager` (`modules/streaming/stream_manager.py`): resolution parsing
  (`_parse_resolution`), the content queue (`push_content`) and the worker
  loop (`_stream_worker`), modelled as a small operational semantics where
  the caller's API calls and single worker-loop iterations interleave.
* `RTMPStreamer` (`modules/streaming/rtmp_streamer.py`): the `initialize`
  resolution table and the `start_streaming` / `stop_streaming` /
  `send_frame` / `send_audio` lifecycle, with the external FFmpeg encoder
  process represented by an abstract handle and a spawn counter.  Whether
  an interaction with the encoder process raises — the frame write in
  `send_frame`, and the `stdin.close()` / `wait(timeout=5)` cleanup in
  `stop_streaming` — is an explicit boolean input of the corresponding
  operation, so both the success and the exception branch of each
  `try/except` are modelled.
* `VirtualCamera` (`modules/streaming/virtual_camera.py`): the `initialize`
  resolution table and the full thread structure of the backend — the
  camera device thread (`_stream_thread_func`), the per-`send_video`
  playback threads (`_video_thread`) and the two distinct stop events
  (`thread_stop_event` and the per-push `video_thread_stop`) — modelled as
  a labelled transition system in which each label is either a public API
  call (which the CPython GIL lets us treat as a block of statements) or a
  single iteration of one background thread's loop.

The file system and the set of video files that OpenCV can actually open
are passed in as explicit lists of path strings.  Python exceptions never
escape the methods modelled here (every method body is wrapped in
`try/except` returning a boolean), which the embedding reflects by making
every operation a total Lean function.
-/

/-! ## Resolution parsing

`StreamManager._parse_resolution` (stream_manager.py lines 46-73) understands
the named sizes `"480p"`, `"720p"`, `"1080p"` and a generic `"WxH"` form via
Python's `str.split("x")` and `int(...)`; everything else falls back to
1280x720 with a warning.  The backends' `initialize` methods
(rtmp_streamer.py lines 77-88, virtual_camera.py lines 63-74) use a named
table `"1080p"`, `"720p"`, `"480p"`, `"360p"` with the same fallback.
Each parser returns `(width, height, warned)` where `warned` records that
`logger.warning` was called on the fallback path. -/

/-- Python `str.split(sep)` for a single-character separator, on the
character list of the string.  `"".split("x") = [""]`, `"x".split("x") =
["", ""]`, etc. -/
def splitOnChar (sep : Char) : List Char → List (List Char)
  | [] => [[]]
  | c :: rest =>
    match splitOnChar sep rest with
    | [] => [[]]
    | h :: t => if c = sep then [] :: h :: t else (c :: h) :: t

/-- Digit run of a Python integer literal after the optional sign: one or
more decimal digits with single underscores allowed between digits
(`int("1_0") = 10`, `int("_1")`, `int("1_")`, `int("1__0")` all raise).
`acc` is the value of the digits already consumed. -/
def pyDigitsAux : Nat → List Char → Option Nat
  | acc, [] => some acc
  | acc, '_' :: c :: rest =>
    if c.isDigit then pyDigitsAux (acc * 10 + (c.toNat - 48)) rest else none
  | acc, c :: rest =>
    if c.isDigit then pyDigitsAux (acc * 10 + (c.toNat - 48)) rest else none

/-- Nonempty digit run (see `pyDigitsAux`); the first character must be a
digit, so leading underscores are rejected. -/
def pyDigits : List Char → Option Nat
  | [] => none
  | c :: rest => if c.isDigit then pyDigitsAux (c.toNat - 48) rest else none

/-- Python `int(s)` on a decimal string: surrounding whitespace is ignored,
an optional single `+`/`-` sign is allowed, and the rest must be a valid
digit run; `none` models the `ValueError` that `_parse_resolution` catches. -/
def pyInt (l : List Char) : Option Int :=
  let t := ((l.dropWhile Char.isWhitespace).reverse.dropWhile Char.isWhitespace).reverse
  match t with
  | '+' :: rest => (pyDigits rest).map Int.ofNat
  | '-' :: rest => (pyDigits rest).map (fun n => -(n : Int))
  | other => (pyDigits other).map Int.ofNat

/-- The `"x" in resolution` branch of `StreamManager._parse_resolution`
(stream_manager.py lines 61-69): split on `"x"`, and if there are exactly
two parts and both parse as Python integers, return them; any deviation
(`len(parts) != 2` or a `ValueError`) falls through to the default. -/
def tryWxH (resolution : String) : Option (Int × Int) :=
  if resolution.data.contains 'x' then
    match splitOnChar 'x' resolution.data with
    | [p1, p2] =>
      match pyInt p1, pyInt p2 with
      | some w, some h => some (w, h)
      | _, _ => none
    | _ => none
  else none

/-- `StreamManager._parse_resolution` (stream_manager.py lines 46-73).
Returns `(width, height, warned)`. -/
def managerParseResolution (resolution : String) : Int × Int × Bool :=
  if resolution = "480p" then (854, 480, false)
  else if resolution = "720p" then (1280, 720, false)
  else if resolution = "1080p" then (1920, 1080, false)
  else
    match tryWxH resolution with
    | some (w, h) => (w, h, false)
    | none => (1280, 720, true)

/-- The resolution table of `RTMPStreamer.initialize` (rtmp_streamer.py
lines 77-88).  Returns `(width, height, warned)`. -/
def rtmpResolveResolution (resolution : String) : Nat × Nat × Bool :=
  if resolution = "1080p" then (1920, 1080, false)
  else if resolution = "720p" then (1280, 720, false)
  else if resolution = "480p" then (854, 480, false)
  else if resolution = "360p" then (640, 360, false)
  else (1280, 720, true)

/-- The resolution table of `VirtualCamera.initialize` (virtual_camera.py
lines 63-74), textually identical to the RTMP one.  Returns
`(width, height, warned)`. -/
def vcamResolveResolution (resolution : String) : Nat × Nat × Bool :=
  if resolution = "1080p" then (1920, 1080, false)
  else if resolution = "720p" then (1280, 720, false)
  else if resolution = "480p" then (854, 480, false)
  else if resolution = "360p" then (640, 360, false)
  else (1280, 720, true)

/-! ## StreamManager: content queue and worker -/

/-- One entry of `StreamManager.content_queue`: the `(video_file, audio_file)`
pair enqueued by `push_content` (stream_manager.py line 127). -/
structure ItemPair where
  videoFile : String
  audioFile : Option String
deriving DecidableEq

/-- The `StreamManager` state visible to the queue/worker claims.
`queue` is `content_queue` (a FIFO `queue.Queue`), `streamed` is the event
log of `_stream_content` invocations made by the worker (in call order),
`spawned` counts subprocesses spawned by `_stream_content`/`_stream_rtmp`,
and `warnings` counts `logger.warning` calls made by `push_content`. -/
structure SMState where
  isStreaming : Bool
  queue : List ItemPair
  streamed : List ItemPair
  spawned : Nat
  warnings : Nat
deriving DecidableEq

/-- `StreamManager` right after `__init__` (stream_manager.py lines 39-42):
not streaming, empty queue. -/
def smInit : SMState :=
  { isStreaming := false, queue := [], streamed := [], spawned := 0, warnings := 0 }

/-- `StreamManager.push_content` (stream_manager.py lines 107-133).
`fs` is the set of paths that exist on disk.  A missing video file is
rejected before anything is enqueued; a present-but-missing audio file is
replaced by `None` with a warning; otherwise the pair is appended to the
FIFO queue.  `queue.Queue.put` on an unbounded queue cannot raise, so the
`except` branch at lines 131-133 is unreachable and the function is total. -/
def pushContent (fs : List String) (s : SMState) (videoFile : String)
    (audioFile : Option String) : Bool × SMState :=
  if videoFile ∉ fs then (false, s)
  else
    match audioFile with
    | some a =>
      if a ∉ fs then
        (true, { s with queue := s.queue ++ [⟨videoFile, none⟩],
                        warnings := s.warnings + 1 })
      else
        (true, { s with queue := s.queue ++ [⟨videoFile, some a⟩] })
    | none => (true, { s with queue := s.queue ++ [⟨videoFile, none⟩] })

/-- The audio-path adjustment performed by `push_content` (stream_manager.py
lines 121-123), used to describe the item that ends up in the queue. -/
def admitAudio (fs : List String) : Option String → Option String
  | some a => if a ∉ fs then none else some a
  | none => none

/-- One iteration of `StreamManager._stream_worker` (stream_manager.py lines
139-152): while `is_streaming`, pop the head of the FIFO queue (if any) and
hand it to `_stream_content`, which spawns one encoder subprocess per item;
an empty poll just sleeps. -/
def workerStep (s : SMState) : SMState :=
  if s.isStreaming then
    match s.queue with
    | [] => s
    | item :: rest =>
      { s with queue := rest, streamed := s.streamed ++ [item],
               spawned := s.spawned + 1 }
  else s

/-- `StreamManager.start` (stream_manager.py lines 75-86): a no-op when
already streaming, otherwise sets the flag and spawns the worker thread
(whose loop iterations are the `work` labels of `SMOp`). -/
def smStart (s : SMState) : SMState :=
  if s.isStreaming then s else { s with isStreaming := true }

/-- `StreamManager.stop` (stream_manager.py lines 88-105): a no-op when not
streaming, otherwise clears the flag (the worker loop then exits). -/
def smStop (s : SMState) : SMState :=
  if s.isStreaming = false then s else { s with isStreaming := false }

/-- Interleaving labels for the `StreamManager` semantics: a producer call
to `push_content`, one worker-loop iteration, or a `start`/`stop` call. -/
inductive SMOp where
  | push (videoFile : String) (audioFile : Option String)
  | work
  | start
  | stop
deriving DecidableEq

/-- Apply one `SMOp` label to a `StreamManager` state. -/
def smStep (fs : List String) (s : SMState) : SMOp → SMState
  | SMOp.push v a => (pushContent fs s v a).2
  | SMOp.work => workerStep s
  | SMOp.start => smStart s
  | SMOp.stop => smStop s

/-- Run a sequence of interleaving labels against a `StreamManager` state. -/
def smRun (fs : List String) (s : SMState) (ops : List SMOp) : SMState :=
  ops.foldl (smStep fs) s

/-- The submission order: the items accepted into the queue by the `push`
labels of `ops`, in submission order, as determined by the same acceptance
test `push_content` applies (video file must exist; missing audio replaced
by `None`). -/
def enqueuedF (fs : List String) : List SMOp → List ItemPair
  | [] => []
  | SMOp.push v a :: rest =>
    (if v ∉ fs then [] else [⟨v, admitAudio fs a⟩]) ++ enqueuedF fs rest
  | SMOp.work :: rest => enqueuedF fs rest
  | SMOp.start :: rest => enqueuedF fs rest
  | SMOp.stop :: rest => enqueuedF fs rest

/-! ## RTMP backend -/

/-- The `RTMPStreamer` state visible to the lifecycle claims.  `ffmpegProc`
is `self.ffmpeg_process` as an abstract process id, `threadStopEvent` is
`self.thread_stop_event`, `streamThreadAlive` tracks `self.stream_thread`,
`nextPid` generates fresh process ids and `spawnCount` counts every
`subprocess.Popen` performed by `start_streaming`. -/
structure RTMPState where
  streaming : Bool
  ffmpegProc : Option Nat
  threadStopEvent : Bool
  streamThreadAlive : Bool
  nextPid : Nat
  spawnCount : Nat
deriving DecidableEq

/-- `RTMPStreamer.start_streaming` (rtmp_streamer.py lines 113-168): when
already streaming it only logs a warning and returns `True`; otherwise it
spawns the FFmpeg encoder process, sets the streaming flag and clears the
thread stop event. -/
def rtmpStartStreaming (s : RTMPState) : Bool × RTMPState :=
  if s.streaming then (true, s)
  else
    (true, { s with ffmpegProc := some s.nextPid,
                    nextPid := s.nextPid + 1,
                    spawnCount := s.spawnCount + 1,
                    streaming := true,
                    threadStopEvent := false })

/-- `RTMPStreamer.stop_streaming` (rtmp_streamer.py lines 170-203): when not
streaming it only logs a warning and returns `True`.  Otherwise it sets the
thread stop event and joins the video thread (`_stream_video_thread` polls
`thread_stop_event`, so it observes the event, terminates its process and
exits; neither `Event.set` nor a timed `join` can raise); then, if an
encoder process is attached, it runs `stdin.close()` and `wait(timeout=5)`
— either of which can raise (`BrokenPipeError` on a dead encoder,
`TimeoutExpired` on a slow one), which the `except` branch at lines
201-203 turns into a `False` return that leaves `self.streaming = True`
and `self.ffmpeg_process` still attached.  `cleanupOk` is whether that
process cleanup succeeds; it is irrelevant when no process is attached
(video-file mode skips the `if self.ffmpeg_process:` body, and the
remaining statements cannot raise). -/
def rtmpStopStreaming (s : RTMPState) (cleanupOk : Bool) : Bool × RTMPState :=
  if s.streaming = false then (true, s)
  else
    match s.ffmpegProc with
    | none =>
      (true, { s with threadStopEvent := true,
                      streamThreadAlive := false,
                      streaming := false })
    | some _ =>
      if cleanupOk then
        (true, { s with threadStopEvent := true,
                        streamThreadAlive := false,
                        ffmpegProc := none,
                        streaming := false })
      else
        (false, { s with threadStopEvent := true,
                         streamThreadAlive := false })

/-- Lifecycle calls made by `send_frame`'s recovery path, recorded so the
"exactly one restart cycle" property is visible in the result. -/
inductive RtmpCall where
  | stopCall
  | startCall
deriving DecidableEq

/-- `RTMPStreamer.send_frame` (rtmp_streamer.py lines 214-247).  `writeOk`
is whether `self.ffmpeg_process.stdin.write(frame.tobytes())` succeeds; a
raising write is caught by the `except` block, which calls
`stop_streaming()` then `start_streaming()` and returns `False`.
`stopCleanupOk` is passed through to the nested `stop_streaming()` call
(whose own process cleanup can raise, see `rtmpStopStreaming`): when that
cleanup fails, `stop_streaming` leaves `streaming = True`, so the
subsequent `start_streaming()` is a no-op and the recovery spawns nothing.
The embedded function is total: no exception reaches the caller. -/
def rtmpSendFrame (s : RTMPState) (writeOk stopCleanupOk : Bool) :
    Bool × RTMPState × List RtmpCall :=
  if s.streaming = false ∨ s.ffmpegProc = none then (false, s, [])
  else if writeOk then (true, s, [])
  else
    (false, (rtmpStartStreaming (rtmpStopStreaming s stopCleanupOk).2).2,
     [RtmpCall.stopCall, RtmpCall.startCall])

/-- `RTMPStreamer.send_audio` (rtmp_streamer.py lines 249-260): logs a
warning and returns `False` unconditionally, for every input and state. -/
def rtmpSendAudio (s : RTMPState) {α : Type} (_audioData : α) : Bool × RTMPState :=
  (false, s)

/-! ## Virtual-camera backend

The backend runs up to three kinds of threads: the caller thread (the
public API), the camera device thread (`_stream_thread_func`), and one
playback thread per `send_video` call (`_video_thread`).  Two distinct
stop events exist in the source: `self.thread_stop_event` (polled by BOTH
the camera loop at line 107 and the playback loop at line 262) and the
per-push `self.video_thread_stop` events created at line 314 (set by the
next `send_video` at line 310 and by `cleanup`, but polled by no thread).
The model keeps every `video_thread_stop` event ever created in `events`,
indexed in creation order. -/

/-- One playback thread (`VirtualCamera._video_thread`): the path it plays,
whether it got past the `cap.isOpened()` check (virtual_camera.py lines
248-252), and whether it is still alive. -/
structure PBThread where
  path : String
  opened : Bool
  alive : Bool
deriving DecidableEq

/-- The `VirtualCamera` state.  `camThreads` holds the alive flags of every
`_stream_thread_func` thread ever started, `pbThreads` every playback
thread, `events` every `video_thread_stop` event object, `videoThread` and
`videoThreadStop` the indices currently stored in `self.video_thread` and
`self.video_thread_stop`, and `currentFrameSrc` records which playback
thread last wrote `self.current_frame`. -/
structure VCState where
  streaming : Bool
  threadStopEvent : Bool
  camThreads : List Bool
  pbThreads : List PBThread
  events : List Bool
  videoThread : Option Nat
  videoThreadStop : Option Nat
  frameQueue : List Nat
  currentFrameSrc : Option Nat
deriving DecidableEq

/-- `VirtualCamera` right after `__init__` (virtual_camera.py lines 28-40). -/
def vcInit : VCState :=
  { streaming := false, threadStopEvent := false, camThreads := [],
    pbThreads := [], events := [], videoThread := none,
    videoThreadStop := none, frameQueue := [], currentFrameSrc := none }

/-- Whether `self.video_thread.is_alive()` holds for playback thread `i`. -/
def pbAlive (s : VCState) (i : Nat) : Bool :=
  match s.pbThreads.get? i with
  | some t => t.alive
  | none => false

/-- `VirtualCamera.start_streaming` (virtual_camera.py lines 132-159): when
already streaming it only logs a warning and returns `True`; otherwise it
clears `thread_stop_event`, starts a new `_stream_thread_func` camera
thread and sets the flag. -/
def vcStartStreaming (s : VCState) : Bool × VCState :=
  if s.streaming then (true, s)
  else
    (true, { s with threadStopEvent := false,
                    camThreads := s.camThreads ++ [true],
                    streaming := true })

/-- `VirtualCamera.stop_streaming` (virtual_camera.py lines 161-192): when
not streaming it only logs a warning and returns `True`; otherwise it sets
`thread_stop_event` (which the camera and playback loops poll and then
exit on their next iteration), joins with a 5-second timeout, clears the
frame queue and clears the flag. -/
def vcStopStreaming (s : VCState) : Bool × VCState :=
  if s.streaming = false then (true, s)
  else
    (true, { s with threadStopEvent := true,
                    frameQueue := [],
                    streaming := false })

/-- `VirtualCamera.send_audio` (virtual_camera.py lines 226-237): logs a
warning and returns `False` unconditionally, for every input and state. -/
def vcSendAudio (s : VCState) {α : Type} (_audioData : α) : Bool × VCState :=
  (false, s)

/-- `VirtualCamera.send_video` (virtual_camera.py lines 288-324).  `fs` is
the set of paths that exist on disk.  A missing path is rejected; otherwise
the camera is started if needed, the current `video_thread_stop` event is
set when the current playback thread is alive (line 310) and the thread is
joined with a 2-second timeout (line 311, a timing no-op in the model:
whether the old thread exits is decided by its own loop steps), and a fresh
`video_thread_stop` event and a fresh playback thread are created. -/
def vcSendVideo (fs : List String) (s : VCState) (videoPath : String) :
    Bool × VCState :=
  if videoPath ∉ fs then (false, s)
  else
    let s1 := if s.streaming = false then (vcStartStreaming s).2 else s
    let s2 :=
      match s1.videoThread with
      | some i =>
        if pbAlive s1 i then
          match s1.videoThreadStop with
          | some e => { s1 with events := s1.events.set e true }
          | none => s1
        else s1
      | none => s1
    let s3 := { s2 with events := s2.events ++ [false],
                        videoThreadStop := some s2.events.length }
    (true, { s3 with pbThreads := s3.pbThreads ++ [⟨videoPath, false, true⟩],
                     videoThread := some s3.pbThreads.length })

/-- One iteration of camera thread `i` (`_stream_thread_func` main loop,
virtual_camera.py lines 107-123): it polls `thread_stop_event` and exits
when set; otherwise it sends the current frame to the device. -/
def camStep (s : VCState) (i : Nat) : VCState :=
  match s.camThreads.get? i with
  | some true =>
    if s.threadStopEvent then { s with camThreads := s.camThreads.set i false }
    else s
  | _ => s

/-- The exception path of camera thread `i` (virtual_camera.py lines
128-130): the thread dies and clears the streaming flag. -/
def camCrashStep (s : VCState) (i : Nat) : VCState :=
  match s.camThreads.get? i with
  | some true =>
    { s with camThreads := s.camThreads.set i false, streaming := false }
  | _ => s

/-- One step of playback thread `i` (`_video_thread`, virtual_camera.py
lines 239-286).  Before it is `opened`, the step is the `cap.isOpened()`
check: failure (the path is not in `openable`) logs an error, clears the
streaming flag and ends the thread (lines 249-252 plus the `finally` at
line 286).  Once opened, each loop iteration polls `thread_stop_event`
(line 262) — and only that event — exiting (and clearing the flag in the
`finally`) when it is set, and otherwise reading a frame and writing it to
`self.current_frame` (line 272). -/
def pbStep (openable : List String) (s : VCState) (i : Nat) : VCState :=
  match s.pbThreads.get? i with
  | some t =>
    if t.alive then
      if t.opened = false then
        if t.path ∈ openable then
          { s with pbThreads := s.pbThreads.set i { t with opened := true } }
        else
          { s with pbThreads := s.pbThreads.set i { t with alive := false },
                   streaming := false }
      else
        if s.threadStopEvent then
          { s with pbThreads := s.pbThreads.set i { t with alive := false },
                   streaming := false }
        else
          { s with currentFrameSrc := some i }
    else s
  | none => s

/-- Interleaving labels for the `VirtualCamera` semantics: public API calls
by the caller thread, or one loop iteration of a background thread. -/
inductive VCOp where
  | sendVid (path : String)
  | start
  | stop
  | cam (i : Nat)
  | camCrash (i : Nat)
  | pb (i : Nat)
deriving DecidableEq

/-- Apply one `VCOp` label to a `VirtualCamera` state. -/
def vcStep (fs openable : List String) (s : VCState) : VCOp → VCState
  | VCOp.sendVid p => (vcSendVideo fs s p).2
  | VCOp.start => (vcStartStreaming s).2
  | VCOp.stop => (vcStopStreaming s).2
  | VCOp.cam i => camStep s i
  | VCOp.camCrash i => camCrashStep s i
  | VCOp.pb i => pbStep openable s i

/-- Run a sequence of interleaving labels against a `VirtualCamera` state. -/
def vcRun (fs openable : List String) (s : VCState) (ops : List VCOp) : VCState :=
  ops.foldl (vcStep fs openable) s

/-! ## Helper lemmas -/

/-- Running the `StreamManager` semantics preserves the queue bookkeeping:
the items already handed to `_stream_content` followed by the items still
pending equal the starting backlog plus the items accepted by the `push`
labels, in submission order. -/
theorem smRun_streamed_queue (fs : List String) :
    ∀ (ops : List SMOp) (s : SMState),
      (smRun fs s ops).streamed ++ (smRun fs s ops).queue
        = s.streamed ++ s.queue ++ enqueuedF fs ops := by
  intro ops
  induction ops with
  | nil => intro s; simp [smRun, enqueuedF]
  | cons op rest ih =>
    intro s
    have hstep : smRun fs s (op :: rest) = smRun fs (smStep fs s op) rest := rfl
    rw [hstep, ih]
    cases op with
    | push v a =>
      by_cases hv : v ∈ fs
      · cases a with
        | some x =>
          by_cases hx : x ∈ fs
          · simp [smStep, pushContent, admitAudio, hv, hx, enqueuedF,
              List.append_assoc]
          · simp [smStep, pushContent, admitAudio, hv, hx, enqueuedF,
              List.append_assoc]
        | none =>
          simp [smStep, pushContent, admitAudio, hv, enqueuedF,
            List.append_assoc]
      · simp [smStep, pushContent, hv, enqueuedF]
    | work =>
      by_cases hs : s.isStreaming
      · cases hq : s.queue with
        | nil => simp [smStep, workerStep, hs, hq, enqueuedF]
        | cons it rest2 =>
          simp [smStep, workerStep, hs, hq, enqueuedF, List.append_assoc]
      · simp [smStep, workerStep, hs, enqueuedF]
    | start =>
      by_cases hs : s.isStreaming <;> simp [smStep, smStart, hs, enqueuedF]
    | stop =>
      by_cases hs : s.isStreaming = false <;> simp [smStep, smStop, hs, enqueuedF]

/-! ## Claim theorems -/

/-- C1.  The claim states that when `send_video(pathB)` is called on the
virtual-camera backend while the playback thread of an earlier
`send_video(pathA)` is still running, the earlier thread observes the stop
signal set by the second call and exits, so two playback threads never
feed frames concurrently.  The code violates this: the second call sets
`self.video_thread_stop` (virtual_camera.py line 310), but the playback
loop polls `self.thread_stop_event` (line 262), an event the second call
never sets.  In the run below, `send_video "a.mp4"` starts playback
thread 0, which opens its file and feeds a frame; then `send_video
"b.mp4"` sets the first `video_thread_stop` event (`events = [true,
false]`) — yet `threadStopEvent` is still `false`, so on its next
scheduled iteration thread 0 feeds another frame (`currentFrameSrc = some
0`) and both playback threads remain alive, feeding `current_frame`
concurrently. -/
theorem c1_send_video_stop_signal_unobserved :
    ((vcRun ["a.mp4", "b.mp4"] ["a.mp4", "b.mp4"] vcInit
        [VCOp.sendVid "a.mp4", VCOp.pb 0, VCOp.pb 0, VCOp.sendVid "b.mp4",
         VCOp.pb 0]).currentFrameSrc = some 0) ∧
    ((vcRun ["a.mp4", "b.mp4"] ["a.mp4", "b.mp4"] vcInit
        [VCOp.sendVid "a.mp4", VCOp.pb 0, VCOp.pb 0, VCOp.sendVid "b.mp4",
         VCOp.pb 0]).pbThreads.map PBThread.alive = [true, true]) ∧
    ((vcRun ["a.mp4", "b.mp4"] ["a.mp4", "b.mp4"] vcInit
        [VCOp.sendVid "a.mp4", VCOp.pb 0, VCOp.pb 0, VCOp.sendVid "b.mp4",
         VCOp.pb 0]).events = [true, false]) ∧
    ((vcRun ["a.mp4", "b.mp4"] ["a.mp4", "b.mp4"] vcInit
        [VCOp.sendVid "a.mp4", VCOp.pb 0, VCOp.pb 0, VCOp.sendVid "b.mp4",
         VCOp.pb 0]).threadStopEvent = false) := by
  decide

/-- C2.  Items accepted by `push_content` are consumed by the worker in
strict FIFO submission order: after any interleaving of pushes, worker
iterations and start/stop calls from the initial state, the sequence of
items handed to `_stream_content` (in call order) followed by the items
still queued is exactly the accepted-submission sequence — so the consumed
sequence is a prefix of the submission order, with no reordering and no
skipping. -/
theorem c2_stream_worker_fifo (fs : List String) (ops : List SMOp) :
    (smRun fs smInit ops).streamed ++ (smRun fs smInit ops).queue
      = enqueuedF fs ops := by
  have h := smRun_streamed_queue fs ops smInit
  simpa [smInit] using h

/-- C3.  When the write to the encoder's stdin fails inside
`RTMPStreamer.send_frame` while streaming with a live process, the `except`
block performs exactly one restart cycle — one `stop_streaming()` call
followed by one `start_streaming()` call, recorded as the call list
`[stopCall, startCall]` — and the method returns `False` for that frame;
the exception is swallowed (the embedded function is total), whether or
not the nested stop's own process cleanup raises.  When the cleanup
succeeds the cycle spawns exactly one new encoder process and the backend
is streaming again; when the cleanup itself raises, `stop_streaming`
returns `False` leaving `streaming = True`, so the `start_streaming()`
half of the cycle is a no-op and nothing is spawned — `send_frame` still
returns `False` without propagating anything. -/
theorem c3_rtmp_send_frame_write_failure (s : RTMPState) (cleanupOk : Bool)
    (hs : s.streaming = true) (hp : s.ffmpegProc.isSome = true) :
    rtmpSendFrame s false cleanupOk
      = (false, (rtmpStartStreaming (rtmpStopStreaming s cleanupOk).2).2,
         [RtmpCall.stopCall, RtmpCall.startCall]) ∧
    (rtmpSendFrame s false true).2.1.spawnCount = s.spawnCount + 1 ∧
    (rtmpSendFrame s false true).2.1.streaming = true ∧
    (rtmpSendFrame s false false).2.1.spawnCount = s.spawnCount ∧
    (rtmpSendFrame s false false).2.1.ffmpegProc = s.ffmpegProc := by
  obtain ⟨pid, hpid⟩ := Option.isSome_iff_exists.mp hp
  have hp' : ¬ s.ffmpegProc = none := by rw [hpid]; simp
  refine ⟨?_, ?_, ?_, ?_, ?_⟩ <;>
    simp [rtmpSendFrame, rtmpStopStreaming, rtmpStartStreaming, hs, hp', hpid]

/-- Witness for C3 at a concrete streaming state with process id 0, for
both a succeeding and a failing nested cleanup. -/
theorem c3_rtmp_send_frame_write_failure_witness :
    rtmpSendFrame ⟨true, some 0, false, false, 1, 1⟩ false true
      = (false, ⟨true, some 1, false, false, 2, 2⟩,
         [RtmpCall.stopCall, RtmpCall.startCall]) ∧
    rtmpSendFrame ⟨true, some 0, false, false, 1, 1⟩ false false
      = (false, ⟨true, some 0, true, false, 1, 1⟩,
         [RtmpCall.stopCall, RtmpCall.startCall]) := by
  have h1 := c3_rtmp_send_frame_write_failure ⟨true, some 0, false, false, 1, 1⟩
    true rfl rfl
  have h2 := c3_rtmp_send_frame_write_failure ⟨true, some 0, false, false, 1, 1⟩
    false rfl rfl
  refine ⟨?_, ?_⟩
  · rw [h1.1]; decide
  · rw [h2.1]; decide

/-- C4.  Resolution parsing: `"1080p"` resolves to 1920x1080, `"720p"` to
1280x720 and `"480p"` to 854x480 (both in `StreamManager._parse_resolution`
and in `RTMPStreamer.initialize`); a `"WxH"` string whose two parts parse
as Python integers resolves to `(W, H)` in the manager; and a string that
no branch recognizes resolves to 1280x720 with a warning logged (the third
component `true`), never a failure. -/
theorem c4_resolution_parsing :
    managerParseResolution "1080p" = (1920, 1080, false) ∧
    managerParseResolution "720p" = (1280, 720, false) ∧
    managerParseResolution "480p" = (854, 480, false) ∧
    (∀ r w h, r ≠ "480p" → r ≠ "720p" → r ≠ "1080p" →
        tryWxH r = some (w, h) →
        managerParseResolution r = (w, h, false)) ∧
    (∀ r, r ≠ "480p" → r ≠ "720p" → r ≠ "1080p" → tryWxH r = none →
        managerParseResolution r = (1280, 720, true)) ∧
    rtmpResolveResolution "1080p" = (1920, 1080, false) ∧
    rtmpResolveResolution "720p" = (1280, 720, false) ∧
    rtmpResolveResolution "480p" = (854, 480, false) ∧
    (∀ r, r ≠ "1080p" → r ≠ "720p" → r ≠ "480p" → r ≠ "360p" →
        rtmpResolveResolution r = (1280, 720, true)) := by
  refine ⟨by decide, by decide, by decide, ?_, ?_, by decide, by decide,
    by decide, ?_⟩
  · intro r w h h1 h2 h3 hw
    simp [managerParseResolution, h1, h2, h3, hw]
  · intro r h1 h2 h3 hw
    simp [managerParseResolution, h1, h2, h3, hw]
  · intro r h1 h2 h3 h4
    simp [rtmpResolveResolution, h1, h2, h3, h4]

/-- Witness for C4: the quantified clauses evaluated at concrete strings —
a parseable `"WxH"`, an unparseable string in the manager, and an
unrecognized string in the RTMP backend. -/
theorem c4_resolution_parsing_witness :
    managerParseResolution "640x360" = (640, 360, false) ∧
    managerParseResolution "junk" = (1280, 720, true) ∧
    rtmpResolveResolution "junk" = (1280, 720, true) :=
  ⟨c4_resolution_parsing.2.2.2.1 "640x360" 640 360 (by decide) (by decide)
      (by decide) (by decide),
   c4_resolution_parsing.2.2.2.2.1 "junk" (by decide) (by decide) (by decide)
      (by decide),
   c4_resolution_parsing.2.2.2.2.2.2.2.2 "junk" (by decide) (by decide)
      (by decide) (by decide)⟩

/-- C5.  `push_content` with a video path that does not exist on disk
returns `False` and leaves the state — in particular the content queue and
the subprocess spawn counter — completely unchanged: the rejection happens
before anything is enqueued and before any process is spawned. -/
theorem c5_push_content_missing_video (fs : List String) (s : SMState)
    (videoFile : String) (audioFile : Option String)
    (h : videoFile ∉ fs) :
    pushContent fs s videoFile audioFile = (false, s) := by
  simp [pushContent, h]

/-- Witness for C5: a concrete missing path against a one-file disk. -/
theorem c5_push_content_missing_video_witness :
    pushContent ["present.mp4"] smInit "missing.mp4" none = (false, smInit) :=
  c5_push_content_missing_video ["present.mp4"] smInit "missing.mp4" none
    (by decide)

/-- C6 counterexample.  The claim's invariant "at most one active backend
handle (encoder process / camera thread) exists per streamer instance at
any time" fails for the virtual-camera backend: `send_video` on an
existing file that OpenCV cannot open starts the camera thread and a
playback thread; the playback thread's `cap.isOpened()` failure path
(virtual_camera.py lines 249-252) clears `self.streaming` while the camera
thread keeps running (no stop event was set); a subsequent
`start_streaming()` sees `streaming == False` and spawns a second camera
thread.  The reachable state below has two concurrently alive camera
threads. -/
theorem c6_two_camera_threads_counterexample :
    ((vcRun ["bad.mp4"] [] vcInit
        [VCOp.sendVid "bad.mp4", VCOp.pb 0, VCOp.start]).camThreads
      = [true, true]) ∧
    ((vcRun ["bad.mp4"] [] vcInit
        [VCOp.sendVid "bad.mp4", VCOp.pb 0, VCOp.start]).camThreads.count true
      = 2) := by
  decide

/-- C6 as amended.  For both backend variants, calling `start_streaming()`
while already streaming is a no-op that returns success (`True`) and
creates no new backend handle (the state, including the encoder spawn
counter and the camera-thread list, is unchanged); a new handle is only
ever created by a call made while the streaming flag is false.  The
original global at-most-one-handle invariant does not hold (see the
counterexample): a playback thread that fails to open its file clears the
streaming flag while a camera thread is still alive, so the next
`start_streaming()` adds a second camera thread. -/
theorem c6_start_streaming_noop (r : RTMPState) (v : VCState)
    (hr : r.streaming = true) (hv : v.streaming = true) :
    rtmpStartStreaming r = (true, r) ∧ vcStartStreaming v = (true, v) := by
  constructor
  · simp [rtmpStartStreaming, hr]
  · simp [vcStartStreaming, hv]

/-- Witness for the amended C6 at concrete already-streaming states. -/
theorem c6_start_streaming_noop_witness :
    rtmpStartStreaming ⟨true, some 0, false, false, 1, 1⟩
      = (true, ⟨true, some 0, false, false, 1, 1⟩) ∧
    vcStartStreaming { vcInit with streaming := true }
      = (true, { vcInit with streaming := true }) :=
  c6_start_streaming_noop ⟨true, some 0, false, false, 1, 1⟩
    { vcInit with streaming := true } rfl rfl

/-- C7 counterexample.  The claim's idempotency clause — "a second
consecutive `stop_streaming()` also returns true and leaves the state
not-streaming" — fails on the RTMP backend: while streaming with an
encoder process attached, `stop_streaming` can hit its `except` branch
(rtmp_streamer.py lines 201-203; `stdin.close()` raises `BrokenPipeError`
on a dead encoder, `wait(timeout=5)` raises `TimeoutExpired` on a slow
one), returning `False` and leaving `streaming = True` with the process
still attached — and a second consecutive stop can fail the same way.
Below, two consecutive stops with failing cleanup from a streaming state
both return `False` and the backend is still streaming with the process
attached. -/
theorem c7_rtmp_double_stop_counterexample :
    ((rtmpStopStreaming
        (rtmpStopStreaming ⟨true, some 0, false, false, 1, 1⟩ false).2
        false).1 = false) ∧
    ((rtmpStopStreaming
        (rtmpStopStreaming ⟨true, some 0, false, false, 1, 1⟩ false).2
        false).2.streaming = true) ∧
    ((rtmpStopStreaming
        (rtmpStopStreaming ⟨true, some 0, false, false, 1, 1⟩ false).2
        false).2.ffmpegProc = some 0) := by
  decide

/-- C7 as amended.  For both backend variants, `stop_streaming()` when not
streaming returns success (`True`) without changing the state and without
raising (the embedded functions are total).  The virtual-camera stop is
unconditionally idempotent: every first stop returns `True` and a second
consecutive stop returns `True` and leaves the backend not streaming.
The RTMP stop is idempotent provided the encoder-process cleanup does not
raise: a first stop whose cleanup succeeds returns `True`, and after it
any second consecutive stop returns `True` and leaves the backend not
streaming.  When the cleanup raises (`stdin.close()`/`wait(timeout=5)`),
the RTMP stop instead returns `False` and leaves `streaming = True` with
the process attached (see the counterexample). -/
theorem c7_stop_streaming_idempotent (r : RTMPState) (v : VCState)
    (c : Bool) :
    (r.streaming = false → rtmpStopStreaming r c = (true, r)) ∧
    (rtmpStopStreaming r true).1 = true ∧
    (rtmpStopStreaming (rtmpStopStreaming r true).2 c).1 = true ∧
    (rtmpStopStreaming (rtmpStopStreaming r true).2 c).2.streaming = false ∧
    (v.streaming = false → vcStopStreaming v = (true, v)) ∧
    (vcStopStreaming v).1 = true ∧
    (vcStopStreaming (vcStopStreaming v).2).1 = true ∧
    (vcStopStreaming (vcStopStreaming v).2).2.streaming = false := by
  refine ⟨?_, ?_, ?_, ?_, ?_, ?_, ?_, ?_⟩
  · intro h; simp [rtmpStopStreaming, h]
  · by_cases h : r.streaming = false <;>
      cases hp : r.ffmpegProc <;> simp [rtmpStopStreaming, h, hp]
  · by_cases h : r.streaming = false <;>
      cases hp : r.ffmpegProc <;> simp [rtmpStopStreaming, h, hp]
  · by_cases h : r.streaming = false <;>
      cases hp : r.ffmpegProc <;> simp [rtmpStopStreaming, h, hp]
  · intro h; simp [vcStopStreaming, h]
  · by_cases h : v.streaming = false <;> simp [vcStopStreaming, h]
  · by_cases h : v.streaming = false <;> simp [vcStopStreaming, h]
  · by_cases h : v.streaming = false <;> simp [vcStopStreaming, h]

/-- Witness for the amended C7 at concrete not-streaming states. -/
theorem c7_stop_streaming_idempotent_witness :
    rtmpStopStreaming ⟨false, none, false, false, 0, 0⟩ true
      = (true, ⟨false, none, false, false, 0, 0⟩) ∧
    vcStopStreaming vcInit = (true, vcInit) :=
  ⟨(c7_stop_streaming_idempotent ⟨false, none, false, false, 0, 0⟩ vcInit
      true).1 rfl,
   (c7_stop_streaming_idempotent ⟨false, none, false, false, 0, 0⟩ vcInit
      true).2.2.2.2.1 rfl⟩

/-- C8.  For both backend variants, `send_audio` returns `False` for every
input and every state, changing nothing; the method only logs a warning,
and no exception can reach the caller (the embedding is a total function). -/
theorem c8_send_audio_always_false (r : RTMPState) (v : VCState)
    {α β : Type} (a : α) (b : β) :
    rtmpSendAudio r a = (false, r) ∧ vcSendAudio v b = (false, v) :=
  ⟨rfl, rfl⟩

/-- C9.  `push_content` with an existing video file and a non-`None` audio
path that does not exist succeeds: it returns `True` and enqueues the pair
`(video_file, None)` — the missing audio path is replaced by `None` with a
warning (`warnings` increases by one) instead of the item being rejected. -/
theorem c9_push_content_missing_audio (fs : List String) (s : SMState)
    (videoFile audioPath : String)
    (hv : videoFile ∈ fs) (ha : audioPath ∉ fs) :
    pushContent fs s videoFile (some audioPath)
      = (true, { s with queue := s.queue ++ [⟨videoFile, none⟩],
                        warnings := s.warnings + 1 }) := by
  simp [pushContent, hv, ha]

/-- Witness for C9: existing video, missing audio, from the initial state. -/
theorem c9_push_content_missing_audio_witness :
    pushContent ["v.mp4"] smInit "v.mp4" (some "a.wav")
      = (true, { smInit with queue := smInit.queue ++ [⟨"v.mp4", none⟩],
                             warnings := smInit.warnings + 1 }) :=
  c9_push_content_missing_audio ["v.mp4"] smInit "v.mp4" "a.wav" (by decide)
    (by decide)

/-- C10.  Both backend variants additionally recognize the resolution
string `"360p"` at initialization, resolving it to 640x360 without the
unrecognized-string warning (so it does not fall into the 1280x720
default). -/
theorem c10_resolution_360p :
    rtmpResolveResolution "360p" = (640, 360, false) ∧
    vcamResolveResolution "360p" = (640, 360, false) :=
  ⟨by decide, by decide⟩
